import Mathlib

/-
  Verification development for AMR-Platform/lower_layer_controller,
  file src/avr_controller/src/motors.c.

  The C file is embedded shallowly: the module-level state (the two
  cached top values, the timer/output registers touched by the driver,
  the two edge counters and the status register SREG) becomes a Lean
  structure, and each public function becomes a state-passing Lean
  function.  Machine integers are Nat with explicit reduction modulo
  2^8 / 2^16 / 2^32 where the C types truncate; the signed 32-bit step
  argument of the move functions is Int reduced by a two's-complement
  wrap.  The unsigned division in the speed-setting functions has an
  undefined-behaviour point (denominator 0); those functions therefore
  return Option, with none exactly when the C code would divide by zero.
-/

/-- Truncation to uint8_t. -/
def u8 (x : Nat) : Nat := x % 256

/-- Truncation to uint16_t. -/
def u16 (x : Nat) : Nat := x % 65536

/-- Truncation to uint32_t. -/
def u32 (x : Nat) : Nat := x % 4294967296

/-- Two's-complement wrap of an Int into the int32_t range. -/
def wrap32 (x : Int) : Int := (x + 2147483648) % 4294967296 - 2147483648

/-- Modelled from the spec: the configuration constants of config.h, which
is not part of the repository (spec section 6 lists them: base clock
frequency F_CPU, steps-per-revolution, the per-channel prescaler divisor
table and the matching clock-select bit patterns).  They are kept as
parameters of the embedding. -/
structure MotorConfig where
  F_CPU : Nat
  STEPS_PER_REV : Nat
  CLOCK_DIVISOR_TIMER4_HIGH : Nat
  CLOCK_DIVISOR_TIMER4_LOW : Nat
  CLOCK_DIVISOR : Nat
  PRE_SCALE_TIMER4_HIGH : Nat
  PRE_SCALE_TIMER4_LOW : Nat
  PRE_SCALE_TIMER1 : Nat
deriving DecidableEq

/-- One software-burst pulse cycle of motors_move_left / motors_move_right:
the output is held high for highUs microseconds (_delay_us(5)), then low
for lowUs microseconds (_delay_us(5)). -/
structure PulseCycle where
  highUs : Nat
  lowUs : Nat
deriving DecidableEq

/-- The state of motors.c: the two file-static cached top values, the
registers the driver writes (8-bit TCCR4B / TCCR1B, the compare registers,
SREG), the single port bits it toggles (enable, direction, pulse, each
driven through _BV of a single bit, modelled as Bool), and the two
volatile edge counters. -/
structure MotorState where
  left_top : Nat
  right_top : Nat
  OCR4C : Nat
  OCR4D : Nat
  OCR1A : Nat
  TCCR4B : Nat
  TCCR1B : Nat
  sreg : Nat
  left_ena : Bool
  right_ena : Bool
  left_dir : Bool
  right_dir : Bool
  left_pul : Bool
  right_pul : Bool
  left_edge_cnt : Nat
  right_edge_cnt : Nat
deriving DecidableEq

/-- motors_enable_left: sets or clears the LEFT_ENA bit. -/
def motors_enable_left (en : Bool) (s : MotorState) : MotorState :=
  if en then { s with left_ena := true } else { s with left_ena := false }

/-- motors_enable_right: sets or clears the RIGHT_ENA bit. -/
def motors_enable_right (en : Bool) (s : MotorState) : MotorState :=
  if en then { s with right_ena := true } else { s with right_ena := false }

/-- motors_enable_all: enables/disables both drivers. -/
def motors_enable_all (en : Bool) (s : MotorState) : MotorState :=
  motors_enable_right en (motors_enable_left en s)

/-- motors_set_dir_left: sets or clears the LEFT_DIR bit (true = forward). -/
def motors_set_dir_left (fwd : Bool) (s : MotorState) : MotorState :=
  if fwd then { s with left_dir := true } else { s with left_dir := false }

/-- motors_set_dir_right: sets or clears the RIGHT_DIR bit. -/
def motors_set_dir_right (fwd : Bool) (s : MotorState) : MotorState :=
  if fwd then { s with right_dir := true } else { s with right_dir := false }

/-- rpm_to_freq: ((uint32_t)rpm * STEPS_PER_REV) / 60U.  The rpm argument
has type uint16_t, the multiplication is carried out in uint32_t. -/
def rpm_to_freq (cfg : MotorConfig) (rpm : Nat) : Nat :=
  u32 (u16 rpm * cfg.STEPS_PER_REV) / 60

/-- The shared uint32_t top computation F_CPU / (2UL * freq * d) - 1UL of
both speed-setting functions: the products are taken modulo 2^32, and the
subtraction of 1UL wraps modulo 2^32.  none exactly when the (wrapped)
denominator is 0, i.e. when the C code divides by zero (undefined
behaviour). -/
def speed_top32 (cfg : MotorConfig) (d : Nat) (freq : Nat) : Option Nat :=
  let den := u32 (u32 (2 * freq) * d)
  if den = 0 then none
  else some (u32 (u32 cfg.F_CPU / den + 4294967295))

/-- motors_set_speed_left (motors.c lines 111-141).  The clock-select bits
CS40..CS43 (bits 0..3 of TCCR4B) are cleared first; the branch on
rpm > 500 picks the divisor and prescale bits; the computed top is cast to
uint16_t and then truncated again by the assignment to the uint8_t
variable left_top; the following `if (left_top > 255) left_top = 255;`
of the source is kept verbatim (on a uint8_t it can never fire); OCR4C
gets the top, OCR4D half of it, and the prescale bits are or-ed into
TCCR4B. -/
def motors_set_speed_left (cfg : MotorConfig) (rpm : Nat) (s : MotorState) :
    Option MotorState :=
  let r := u16 rpm
  let freq := rpm_to_freq cfg r
  let s1 := { s with TCCR4B := s.TCCR4B &&& 240 }
  if 500 < r then
    match speed_top32 cfg cfg.CLOCK_DIVISOR_TIMER4_HIGH freq with
    | none => none
    | some t =>
      let lt0 := u8 (u16 t)
      let lt := if 255 < lt0 then 255 else lt0
      some { s1 with
              left_top := lt
              OCR4C := lt
              OCR4D := lt / 2
              TCCR4B := u8 (s1.TCCR4B ||| cfg.PRE_SCALE_TIMER4_HIGH) }
  else
    match speed_top32 cfg cfg.CLOCK_DIVISOR_TIMER4_LOW freq with
    | none => none
    | some t =>
      let lt0 := u8 (u16 t)
      let lt := if 255 < lt0 then 255 else lt0
      some { s1 with
              left_top := lt
              OCR4C := lt
              OCR4D := lt / 2
              TCCR4B := u8 (s1.TCCR4B ||| cfg.PRE_SCALE_TIMER4_LOW) }

/-- motors_set_speed_right (motors.c lines 143-154): single fixed divisor
CLOCK_DIVISOR, top cast to uint16_t into right_top and OCR1A, then the
Timer1 clock-select bits CS10..CS12 (bits 0..2 of TCCR1B) are cleared and
PRE_SCALE_TIMER1 is or-ed in. -/
def motors_set_speed_right (cfg : MotorConfig) (rpm : Nat) (s : MotorState) :
    Option MotorState :=
  let r := u16 rpm
  let freq := rpm_to_freq cfg r
  match speed_top32 cfg cfg.CLOCK_DIVISOR freq with
  | none => none
  | some t =>
    let rt := u16 t
    some { s with
            right_top := rt
            OCR1A := rt
            TCCR1B := u8 ((s.TCCR1B &&& 248) ||| cfg.PRE_SCALE_TIMER1) }

/-- motors_set_speed_both: left then right. -/
def motors_set_speed_both (cfg : MotorConfig) (rpm_left rpm_right : Nat)
    (s : MotorState) : Option MotorState :=
  match motors_set_speed_left cfg rpm_left s with
  | none => none
  | some s1 => motors_set_speed_right cfg rpm_right s1

/-- The pulse loop of motors_move_left: each iteration drives LEFT_PUL
high, waits 5 us, drives it low, waits 5 us; the trace records one
PulseCycle per iteration. -/
def pulse_loop_left : Nat → MotorState → MotorState × List PulseCycle
  | 0, s => (s, [])
  | Nat.succ n, s =>
    let s1 := { s with left_pul := true }
    let s2 := { s1 with left_pul := false }
    let r := pulse_loop_left n s2
    (r.1, { highUs := 5, lowUs := 5 } :: r.2)

/-- The pulse loop of motors_move_right. -/
def pulse_loop_right : Nat → MotorState → MotorState × List PulseCycle
  | 0, s => (s, [])
  | Nat.succ n, s =>
    let s1 := { s with right_pul := true }
    let s2 := { s1 with right_pul := false }
    let r := pulse_loop_right n s2
    (r.1, { highUs := 5, lowUs := 5 } :: r.2)

/-- motors_move_left (motors.c lines 162-180): enable the driver; if the
int32_t step count is negative, negate it (two's-complement wrap) and set
reverse, else set forward; then run the blocking pulse loop `steps`
times.  The loop bound `for (int32_t i = 0; i < steps; ++i)` executes
max(steps,0) iterations. -/
def motors_move_left (steps0 : Int) (s : MotorState) :
    MotorState × List PulseCycle :=
  let steps := wrap32 steps0
  let sa := motors_enable_left true s
  let p := if steps < 0 then (wrap32 (-steps), motors_set_dir_left false sa)
           else (steps, motors_set_dir_left true sa)
  pulse_loop_left p.1.toNat p.2

/-- motors_move_right (motors.c lines 182-200). -/
def motors_move_right (steps0 : Int) (s : MotorState) :
    MotorState × List PulseCycle :=
  let steps := wrap32 steps0
  let sa := motors_enable_right true s
  let p := if steps < 0 then (wrap32 (-steps), motors_set_dir_right false sa)
           else (steps, motors_set_dir_right true sa)
  pulse_loop_right p.1.toNat p.2

/-- motors_stop_all (motors.c lines 202-210): disable both drivers, then
clear the clock-select bits of TCCR1B (CS10..CS12, mask 0x07) and of
TCCR4B (CS40..CS43, mask 0x0F). -/
def motors_stop_all (s : MotorState) : MotorState :=
  let s1 := motors_enable_all false s
  let s2 := { s1 with TCCR1B := s1.TCCR1B &&& 248 }
  { s2 with TCCR4B := s2.TCCR4B &&& 240 }

/-- motors_reset_edge_counts (motors.c lines 214-219): save SREG, cli()
(clear the I bit, bit 7), zero both counters, restore the saved SREG. -/
def motors_reset_edge_counts (s : MotorState) : MotorState :=
  let oldSREG := s.sreg
  let s1 := { s with sreg := s.sreg &&& 127 }
  let s2 := { s1 with left_edge_cnt := 0, right_edge_cnt := 0 }
  { s2 with sreg := oldSREG }

/-- motors_get_edge_count_left (motors.c lines 221-227): save SREG, cli(),
snapshot the counter, restore SREG, return the snapshot. -/
def motors_get_edge_count_left (s : MotorState) : Nat × MotorState :=
  let oldSREG := s.sreg
  let s1 := { s with sreg := s.sreg &&& 127 }
  let c := s1.left_edge_cnt
  let s2 := { s1 with sreg := oldSREG }
  (c, s2)

/-- motors_get_edge_count_right (motors.c lines 229-235). -/
def motors_get_edge_count_right (s : MotorState) : Nat × MotorState :=
  let oldSREG := s.sreg
  let s1 := { s with sreg := s.sreg &&& 127 }
  let c := s1.right_edge_cnt
  let s2 := { s1 with sreg := oldSREG }
  (c, s2)

/-- motors_get_step_count_left: the left edge-count snapshot shifted right
by one bit. -/
def motors_get_step_count_left (s : MotorState) : Nat × MotorState :=
  let r := motors_get_edge_count_left s
  (r.1 >>> 1, r.2)

/-- motors_get_step_count_right. -/
def motors_get_step_count_right (s : MotorState) : Nat × MotorState :=
  let r := motors_get_edge_count_right s
  (r.1 >>> 1, r.2)

/-- Modelled from the spec: a concrete instantiation of the missing
config.h, used for concrete evaluations.  Base clock 16 MHz and 200
steps per revolution are the spec section 8 scenario constants; the
Timer1 divisor 1024 is stated by the source comment "start Timer-1 with
/1024 pre-scale" (clock-select value CS12|CS10 = 5); the Timer4 divisors
8 (high regime, clock-select value 4) and 64 (low regime, clock-select
value 7) are representative AVR Timer4 prescaler table entries. -/
def mcfg : MotorConfig :=
  { F_CPU := 16000000
    STEPS_PER_REV := 200
    CLOCK_DIVISOR_TIMER4_HIGH := 8
    CLOCK_DIVISOR_TIMER4_LOW := 64
    CLOCK_DIVISOR := 1024
    PRE_SCALE_TIMER4_HIGH := 4
    PRE_SCALE_TIMER4_LOW := 7
    PRE_SCALE_TIMER1 := 5 }

/-- A concrete state for evaluations: the post-init resting state (pulse
high, forward, drivers disabled, timers stopped, counters zero,
interrupts enabled). -/
def st0 : MotorState :=
  { left_top := 0
    right_top := 0
    OCR4C := 0
    OCR4D := 0
    OCR1A := 0
    TCCR4B := 0
    TCCR1B := 8
    sreg := 128
    left_ena := false
    right_ena := false
    left_dir := true
    right_dir := true
    left_pul := true
    right_pul := true
    left_edge_cnt := 0
    right_edge_cnt := 0 }

/-- Modelled from the spec's words (section 4.1), for comparison against
the code: "top = round_down(base_clock / (2 * freq * prescaler_divisor))
- 1", read as exact integer arithmetic. -/
def spec_top (base freq d : Nat) : Int :=
  (Int.ofNat (base / (2 * freq * d))) - 1

/-- Helper: an int32_t-ranged value is a fixed point of the wrap. -/
theorem wrap32_of_range (x : Int) (h1 : -2147483648 ≤ x)
    (h2 : x < 2147483648) : wrap32 x = x := by
  unfold wrap32
  omega

/-- Helper: a uint8_t value is below 256. -/
theorem u8_lt (x : Nat) : u8 x < 256 := by
  unfold u8
  omega

/-- Helper: the source clamp `if (left_top > 255) left_top = 255` never
fires on a uint8_t value. -/
theorem clamp_dead (x : Nat) : (if 255 < u8 x then 255 else u8 x) = u8 x := by
  unfold u8
  split <;> omega

/-- Helper: the uint32_t subtraction of 1UL, as performed by adding
2^32 - 1 modulo 2^32, equals the mathematical predecessor when the
quotient is at least 1 and wraps to 2^32 - 1 when it is 0. -/
theorem u32_sub_one (q : Nat) (hq : q < 4294967296) :
    u32 (q + 4294967295) = if 1 ≤ q then q - 1 else 4294967295 := by
  unfold u32
  split <;> omega

/-- Helper: the left pulse loop emits one 5us-high/5us-low cycle per
iteration and leaves the enable, direction and both edge counters of the
state untouched. -/
theorem pulse_loop_left_spec (n : Nat) (s : MotorState) :
    (pulse_loop_left n s).2 = List.replicate n { highUs := 5, lowUs := 5 } ∧
    (pulse_loop_left n s).1.left_ena = s.left_ena ∧
    (pulse_loop_left n s).1.left_dir = s.left_dir ∧
    (pulse_loop_left n s).1.left_edge_cnt = s.left_edge_cnt ∧
    (pulse_loop_left n s).1.right_edge_cnt = s.right_edge_cnt := by
  induction n generalizing s with
  | zero => simp [pulse_loop_left]
  | succ n ih => simp [pulse_loop_left, List.replicate_succ, ih]

/-- Helper: the right pulse loop, same shape. -/
theorem pulse_loop_right_spec (n : Nat) (s : MotorState) :
    (pulse_loop_right n s).2 = List.replicate n { highUs := 5, lowUs := 5 } ∧
    (pulse_loop_right n s).1.right_ena = s.right_ena ∧
    (pulse_loop_right n s).1.right_dir = s.right_dir ∧
    (pulse_loop_right n s).1.left_edge_cnt = s.left_edge_cnt ∧
    (pulse_loop_right n s).1.right_edge_cnt = s.right_edge_cnt := by
  induction n generalizing s with
  | zero => simp [pulse_loop_right]
  | succ n ih => simp [pulse_loop_right, List.replicate_succ, ih]

/-- Helper: a negative in-range move request reduces to the pulse loop on
the enabled, reverse-direction state. -/
theorem move_left_neg (k : Int) (s : MotorState) (h1 : 0 < k)
    (h2 : k < 2147483648) :
    motors_move_left (-k) s =
      pulse_loop_left k.toNat { s with left_ena := true, left_dir := false } := by
  have hn1 : wrap32 (-k) = -k := wrap32_of_range _ (by omega) (by omega)
  have hn2 : wrap32 k = k := wrap32_of_range _ (by omega) (by omega)
  simp only [motors_move_left, hn1, neg_neg, hn2]
  rw [if_pos (by omega : -k < 0)]
  simp [motors_enable_left, motors_set_dir_left]

/-- Helper: a non-negative in-range move request reduces to the pulse loop
on the enabled, forward-direction state. -/
theorem move_left_nonneg (k : Int) (s : MotorState) (h1 : 0 ≤ k)
    (h2 : k < 2147483648) :
    motors_move_left k s =
      pulse_loop_left k.toNat { s with left_ena := true, left_dir := true } := by
  have hn2 : wrap32 k = k := wrap32_of_range _ (by omega) (by omega)
  simp only [motors_move_left, hn2]
  rw [if_neg (by omega : ¬ k < 0)]
  simp [motors_enable_left, motors_set_dir_left]

/-- Helper: right-channel version of move_left_neg. -/
theorem move_right_neg (k : Int) (s : MotorState) (h1 : 0 < k)
    (h2 : k < 2147483648) :
    motors_move_right (-k) s =
      pulse_loop_right k.toNat { s with right_ena := true, right_dir := false } := by
  have hn1 : wrap32 (-k) = -k := wrap32_of_range _ (by omega) (by omega)
  have hn2 : wrap32 k = k := wrap32_of_range _ (by omega) (by omega)
  simp only [motors_move_right, hn1, neg_neg, hn2]
  rw [if_pos (by omega : -k < 0)]
  simp [motors_enable_right, motors_set_dir_right]

/-- Helper: right-channel version of move_left_nonneg. -/
theorem move_right_nonneg (k : Int) (s : MotorState) (h1 : 0 ≤ k)
    (h2 : k < 2147483648) :
    motors_move_right k s =
      pulse_loop_right k.toNat { s with right_ena := true, right_dir := true } := by
  have hn2 : wrap32 k = k := wrap32_of_range _ (by omega) (by omega)
  simp only [motors_move_right, hn2]
  rw [if_neg (by omega : ¬ k < 0)]
  simp [motors_enable_right, motors_set_dir_right]

/-- C1: evaluation of the code at a failing input.  With the spec-scenario
clock (16 MHz), 200 steps per revolution and low-regime divisor 64, the
call motors_set_speed_left(1) computes the 32-bit top value 41665, which
is above 255; the stored left_top and programmed OCR4C are then 193 — the
modular residue 41665 mod 256 — and not the clamped maximum 255, because
the assignment to the uint8_t variable left_top truncates before the
`if (left_top > 255)` clamp is evaluated (the clamp is dead code). -/
theorem c1_left_top_wraps_not_clamped :
    speed_top32 mcfg mcfg.CLOCK_DIVISOR_TIMER4_LOW (rpm_to_freq mcfg (u16 1)) =
      some 41665 ∧
    255 < 41665 ∧
    (motors_set_speed_left mcfg 1 st0).map (fun s1 => (s1.left_top, s1.OCR4C)) =
      some (193, 193) ∧
    (193 : Nat) = 41665 % 256 ∧
    (193 : Nat) ≠ 255 := by
  decide

/-- C2: with rpm = 0 neither speed-setting function fails with an
InvalidSpeed condition before the top computation; the code has no error
path at all, computes freq = 0 and reaches the division
F_CPU / (2 * 0 * divisor), a division by zero (undefined behaviour in C,
embedded here as the none result), for every configuration and state. -/
theorem c2_zero_rpm_reaches_division_by_zero (cfg : MotorConfig)
    (s : MotorState) :
    motors_set_speed_left cfg 0 s = none ∧
    motors_set_speed_right cfg 0 s = none := by
  constructor <;>
    simp [motors_set_speed_left, motors_set_speed_right, rpm_to_freq,
      speed_top32, u16, u32]

/-- C3: for every configuration, rpm and state, motors_set_speed_left
selects the high-speed divisor CLOCK_DIVISOR_TIMER4_HIGH and or-s
PRE_SCALE_TIMER4_HIGH into TCCR4B exactly when rpm > 500, and the
low-speed pair exactly when rpm <= 500; concretely (16 MHz, 200 steps,
divisors 8/64, clock-select values 4/7) rpm = 500 takes the low-speed
branch (TCCR4B = 7) and rpm = 501 the high-speed branch (TCCR4B = 4). -/
theorem c3_prescaler_threshold (cfg : MotorConfig) (rpm : Nat)
    (s : MotorState) :
    ((motors_set_speed_left cfg rpm s).elim True (fun s1 =>
      s1.TCCR4B = u8 ((s.TCCR4B &&& 240) |||
        (if 500 < u16 rpm then cfg.PRE_SCALE_TIMER4_HIGH
         else cfg.PRE_SCALE_TIMER4_LOW)) ∧
      some s1.left_top =
        (speed_top32 cfg
          (if 500 < u16 rpm then cfg.CLOCK_DIVISOR_TIMER4_HIGH
           else cfg.CLOCK_DIVISOR_TIMER4_LOW)
          (rpm_to_freq cfg (u16 rpm))).map (fun t => u8 (u16 t)))) ∧
    (motors_set_speed_left mcfg 500 st0).map
      (fun s1 => (s1.left_top, s1.TCCR4B)) = some (74, 7) ∧
    (motors_set_speed_left mcfg 501 st0).map
      (fun s1 => (s1.left_top, s1.TCCR4B)) = some (85, 4) := by
  refine ⟨?_, by decide, by decide⟩
  by_cases h : 500 < u16 rpm <;>
    simp only [motors_set_speed_left, h, if_true, if_false] <;>
    split <;>
    simp_all [clamp_dead]

/-- C4 (amended): the pulse frequency is rpm * STEPS_PER_REV / 60 with
integer truncation (the uint32_t product wrap is invisible whenever the
product is below 2^32), and the 32-bit top computation equals the floor
of base_clock / (2 * freq * divisor) minus 1 whenever that floor is at
least 1; when the floor is 0 the unsigned subtraction of 1 wraps to
2^32 - 1 instead of the spec formula value -1. -/
theorem c4_top_formula_u32 (cfg : MotorConfig) (d freq rpm : Nat) :
    rpm_to_freq cfg rpm =
      (if u16 rpm * cfg.STEPS_PER_REV < 4294967296
       then u16 rpm * cfg.STEPS_PER_REV / 60
       else u32 (u16 rpm * cfg.STEPS_PER_REV) / 60) ∧
    (speed_top32 cfg d freq).elim True (fun t =>
      t = if 1 ≤ u32 cfg.F_CPU / u32 (u32 (2 * freq) * d)
          then u32 cfg.F_CPU / u32 (u32 (2 * freq) * d) - 1
          else 4294967295) := by
  constructor
  · split
    · next h =>
      unfold rpm_to_freq u32
      rw [Nat.mod_eq_of_lt h]
    · rfl
  · simp only [speed_top32]
    split
    · simp
    · simp only [Option.elim]
      exact u32_sub_one _
        (lt_of_le_of_lt (Nat.div_le_self _ _) (Nat.mod_lt _ (by norm_num)))

/-- C4 counterexample: at rpm = 65535 (16 MHz, 200 steps/rev, Timer1
divisor 1024 as stated by the source comment) freq = 218450 and the floor
of base_clock / (2 * freq * divisor) is 0, so the spec formula "floor
minus 1" yields -1 while the code computes the wrapped uint32_t value
4294967295 and stores right_top = 65535: the claimed identity fails. -/
theorem c4_counterexample :
    spec_top 16000000 (rpm_to_freq mcfg 65535) mcfg.CLOCK_DIVISOR = -1 ∧
    speed_top32 mcfg mcfg.CLOCK_DIVISOR (rpm_to_freq mcfg 65535) =
      some 4294967295 ∧
    (motors_set_speed_right mcfg 65535 st0).map (fun s1 => s1.right_top) =
      some 65535 ∧
    ((4294967295 : Int) ≠
      spec_top 16000000 (rpm_to_freq mcfg 65535) mcfg.CLOCK_DIVISOR) := by
  decide

/-- C5 (amended): for every k with 0 < k < 2^31, moving by -k enables the
channel's driver, sets its direction to reverse and executes exactly k
pulse cycles of 5 us high / 5 us low while leaving that channel's edge
counter unchanged; for a non-negative in-range count the direction is set
to forward and the magnitude is used (k = 2^31, i.e. the argument -2^31,
is excluded: there the int32_t negation wraps and zero cycles run). -/
theorem c5_move_signed_steps (k : Int) (s : MotorState) (h1 : 0 < k)
    (h2 : k < 2147483648) :
    (motors_move_left (-k) s).1.left_ena = true ∧
    (motors_move_left (-k) s).1.left_dir = false ∧
    (motors_move_left (-k) s).2 =
      List.replicate k.toNat { highUs := 5, lowUs := 5 } ∧
    (motors_move_left (-k) s).1.left_edge_cnt = s.left_edge_cnt ∧
    (motors_move_right (-k) s).1.right_ena = true ∧
    (motors_move_right (-k) s).1.right_dir = false ∧
    (motors_move_right (-k) s).2 =
      List.replicate k.toNat { highUs := 5, lowUs := 5 } ∧
    (motors_move_right (-k) s).1.right_edge_cnt = s.right_edge_cnt ∧
    (motors_move_left k s).1.left_dir = true ∧
    (motors_move_left k s).2 =
      List.replicate k.toNat { highUs := 5, lowUs := 5 } ∧
    (motors_move_right k s).1.right_dir = true ∧
    (motors_move_right k s).2 =
      List.replicate k.toNat { highUs := 5, lowUs := 5 } := by
  rw [move_left_neg k s h1 h2, move_right_neg k s h1 h2,
    move_left_nonneg k s (le_of_lt h1) h2, move_right_nonneg k s (le_of_lt h1) h2]
  obtain ⟨l1, l2, l3, l4, -⟩ :=
    pulse_loop_left_spec k.toNat { s with left_ena := true, left_dir := false }
  obtain ⟨r1, r2, r3, -, r4⟩ :=
    pulse_loop_right_spec k.toNat { s with right_ena := true, right_dir := false }
  obtain ⟨lf1, -, lf2, -⟩ :=
    pulse_loop_left_spec k.toNat { s with left_ena := true, left_dir := true }
  obtain ⟨rf1, -, rf2, -⟩ :=
    pulse_loop_right_spec k.toNat { s with right_ena := true, right_dir := true }
  exact ⟨l2, l3, l1, l4, r2, r3, r1, r4, lf2, lf1, rf2, rf1⟩

/-- C5 witness. -/
theorem c5_move_signed_steps_witness :
    (0 : Int) < 2 ∧ (2 : Int) < 2147483648 ∧
    (motors_move_left (-2) st0).2 =
      List.replicate (2 : Int).toNat { highUs := 5, lowUs := 5 } :=
  ⟨by decide, by decide, (c5_move_signed_steps 2 st0 (by decide) (by decide)).2.2.1⟩

/-- C5 counterexample to the claim as stated: at k = 2^31 (move argument
-2^31, a valid int32_t) the left channel executes 0 pulse cycles, not the
k = 2147483648 cycles the claim requires for every k > 0. -/
theorem c5_counterexample :
    (motors_move_left (-2147483648) st0).2.length = 0 ∧
    (0 : Nat) ≠ 2147483648 := by
  decide

/-- C6: each step-count query returns exactly the edge-count snapshot of
its channel shifted right by one bit, i.e. the floor of edge_count / 2,
for every state. -/
theorem c6_step_count_is_half_edge_count (s : MotorState) :
    (motors_get_step_count_left s).1 = (motors_get_edge_count_left s).1 >>> 1 ∧
    (motors_get_step_count_left s).1 = s.left_edge_cnt / 2 ∧
    (motors_get_step_count_right s).1 = (motors_get_edge_count_right s).1 >>> 1 ∧
    (motors_get_step_count_right s).1 = s.right_edge_cnt / 2 := by
  refine ⟨rfl, ?_, rfl, ?_⟩ <;>
    simp [motors_get_step_count_left, motors_get_step_count_right,
      motors_get_edge_count_left, motors_get_edge_count_right,
      Nat.shiftRight_eq_div_pow]

/-- C7: motors_stop_all clears both enable outputs and the clock-select
bits of both timers (TCCR1B loses CS10..CS12, TCCR4B loses CS40..CS43)
while leaving both cached tops, all three compare registers, both edge
counters and both direction outputs unchanged, for every state. -/
theorem c7_stop_all_frame (s : MotorState) :
    (motors_stop_all s).left_ena = false ∧
    (motors_stop_all s).right_ena = false ∧
    (motors_stop_all s).TCCR1B = s.TCCR1B &&& 248 ∧
    (motors_stop_all s).TCCR4B = s.TCCR4B &&& 240 ∧
    (motors_stop_all s).left_top = s.left_top ∧
    (motors_stop_all s).right_top = s.right_top ∧
    (motors_stop_all s).OCR4C = s.OCR4C ∧
    (motors_stop_all s).OCR4D = s.OCR4D ∧
    (motors_stop_all s).OCR1A = s.OCR1A ∧
    (motors_stop_all s).left_edge_cnt = s.left_edge_cnt ∧
    (motors_stop_all s).right_edge_cnt = s.right_edge_cnt ∧
    (motors_stop_all s).left_dir = s.left_dir ∧
    (motors_stop_all s).right_dir = s.right_dir := by
  simp [motors_stop_all, motors_enable_all, motors_enable_left,
    motors_enable_right]

/-- C8: both counter reads and the counter reset save SREG on entry,
disable interrupts, and restore exactly the saved SREG on exit, so the
interrupt-enable state after the call equals its value before the call
for every prior state — including states in which interrupts were already
disabled, which are not re-enabled. -/
theorem c8_sreg_saved_and_restored (s : MotorState) :
    (motors_get_edge_count_left s).2.sreg = s.sreg ∧
    (motors_get_edge_count_right s).2.sreg = s.sreg ∧
    (motors_reset_edge_counts s).sreg = s.sreg := by
  simp [motors_get_edge_count_left, motors_get_edge_count_right,
    motors_reset_edge_counts]

/-- C9 (amended): in both branches of motors_set_speed_left the secondary
compare point OCR4D is programmed to the integer half (floor) of the
programmed top OCR4C; for odd top values this is (top - 1) / 2, one half
step short of an exact 50% duty cycle. -/
theorem c9_ocr4d_floor_half (cfg : MotorConfig) (rpm : Nat) (s : MotorState) :
    (motors_set_speed_left cfg rpm s).elim True
      (fun s1 => s1.OCR4D = s1.OCR4C / 2) := by
  by_cases h : 500 < u16 rpm <;>
    simp only [motors_set_speed_left, h, if_true, if_false] <;>
    split <;>
    simp

/-- C9 counterexample: with the concrete configuration (16 MHz, 200
steps/rev, low divisor 64) rpm = 3 programs the odd top OCR4C = 211 and
OCR4D = 105, and 2 * 105 = 210 is not 211, so OCR4D is not exactly half
of the top. -/
theorem c9_counterexample :
    (motors_set_speed_left mcfg 3 st0).map (fun s1 => (s1.OCR4C, s1.OCR4D)) =
      some (211, 105) ∧
    (211 : Nat) % 2 = 1 ∧
    ¬ (2 * 105 = 211) := by
  decide

/-- C10: at the single input -2^31 (the minimum int32_t) both move
functions enable their driver and set direction to reverse, but the
two's-complement negation wraps -2^31 back to itself, the loop bound stays
negative and zero pulse cycles are produced, although the requested
magnitude is 2^31. -/
theorem c10_int_min_move_runs_zero_cycles :
    (motors_move_left (-2147483648) st0).1.left_ena = true ∧
    (motors_move_left (-2147483648) st0).1.left_dir = false ∧
    (motors_move_left (-2147483648) st0).2 = [] ∧
    (motors_move_right (-2147483648) st0).1.right_ena = true ∧
    (motors_move_right (-2147483648) st0).1.right_dir = false ∧
    (motors_move_right (-2147483648) st0).2 = [] ∧
    ([] : List PulseCycle).length ≠ 2147483648 := by
  decide
